import Mathlib

/-
  Verification development for the honeybee-kiosk-app repository.

  Shallow embedding of the parts of the program that the claims are about:
  the unmount teardown sequence (IMPLEMENTATION.md, Cleanup on Unmount),
  the capture scheduler / backoff / gaze policies (modelled from the spec,
  since MediaPipeEyeTracker.tsx itself is not part of the source tree),
  the Rust backend commands set_brightness and delete_media
  (IMPLEMENTATION_EXAMPLES.md), the RecorderApp close handler
  (src/components/miniapps/recorder/RecorderApp.tsx) and the MusicApp
  delete handler (unnamed source file, MusicApp component).
-/

namespace Honeybee

/-! ## Teardown on unmount (IMPLEMENTATION.md, Cleanup on Unmount) -/

/-- The individual teardown actions that appear in the Cleanup on Unmount
code of IMPLEMENTATION.md, plus the await/cancel-inference action the spec
talks about (so that its absence from the code can be stated). -/
inductive TeardownStep where
  | stopTimer
  | cancelInference
  | releaseCamera
  | closeInference
  | disposeGPU
deriving DecidableEq, Repr

/-- Resources held by the eye-tracker screen. -/
structure KioskResources where
  timerActive : Bool
  cameraHeld : Bool
  inferenceOpen : Bool
  gpuAllocated : Bool
deriving DecidableEq, Repr

/-- Effect of one teardown step on the held resources. -/
def applyTeardown (r : KioskResources) : TeardownStep → KioskResources
  | .stopTimer => { r with timerActive := false }
  | .cancelInference => r
  | .releaseCamera => { r with cameraHeld := false }
  | .closeInference => { r with inferenceOpen := false }
  | .disposeGPU => { r with gpuAllocated := false }

/-- Cleanup on Unmount from IMPLEMENTATION.md, in the order the code
performs it: clearInterval on the capture interval, invoke release_camera,
holistic.close, then renderer.dispose and the scene traversal disposing
geometry and materials. -/
def cleanupSequence : List TeardownStep :=
  [.stopTimer, .releaseCamera, .closeInference, .disposeGPU]

/-- Running the unmount cleanup: fold the steps over the resources and
record the trace of steps in the order executed. -/
def cleanupOnUnmount (r : KioskResources) : KioskResources × List TeardownStep :=
  (cleanupSequence.foldl applyTeardown r, cleanupSequence)

/-! ## Capture Scheduler (modelled from the spec) -/

/-- Modelled from the spec: the Capture Scheduler state of the eye-tracker
component (MediaPipeEyeTracker.tsx, whose code is not in the source tree):
the number of outstanding capture-to-inference round trips and the skip
counter incremented on overlapping ticks. -/
structure SchedState where
  outstanding : Nat
  skips : Nat
deriving DecidableEq, Repr

/-- Events driving the scheduler: a timer tick, or completion of the
capture-to-inference round trip. -/
inductive SchedEvent where
  | tick
  | complete
deriving DecidableEq, Repr

/-- Modelled from the spec: on each tick, if a previous cycle is still
outstanding, skip this tick (no overlap) and increment the skip counter;
otherwise start a new capture cycle.  A completion ends the cycle. -/
def schedStep (s : SchedState) : SchedEvent → SchedState
  | .tick =>
      if 0 < s.outstanding then { s with skips := s.skips + 1 }
      else { s with outstanding := s.outstanding + 1 }
  | .complete => { s with outstanding := s.outstanding - 1 }

/-- Initial scheduler state: nothing in flight, no skips. -/
def schedInit : SchedState := { outstanding := 0, skips := 0 }

/-- Run the scheduler over a sequence of events from the initial state. -/
def schedRun (events : List SchedEvent) : SchedState :=
  events.foldl schedStep schedInit

/-! ## Failure backoff (modelled from the spec) -/

/-- Consecutive-failure counters of PipelineHealth. -/
structure PipelineHealth where
  consecutiveCaptureFailures : Nat
  consecutiveInferenceFailures : Nat
deriving DecidableEq, Repr

/-- Modelled from the spec: the effective retry interval of the Capture
Scheduler (implementation not in the source tree).  At or below the failure
threshold the interval is the base period P; above it, the period widens
exponentially, capped at maxInterval. -/
def retryInterval (P threshold maxInterval failures : Nat) : Nat :=
  if failures ≤ threshold then P
  else min (P * 2 ^ (failures - threshold)) maxInterval

/-- A failed capture increments the consecutive-capture-failure counter. -/
def onCaptureFailure (h : PipelineHealth) : PipelineHealth :=
  { h with consecutiveCaptureFailures := h.consecutiveCaptureFailures + 1 }

/-- A successful capture resets the consecutive-capture-failure counter. -/
def onCaptureSuccess (h : PipelineHealth) : PipelineHealth :=
  { h with consecutiveCaptureFailures := 0 }

/-! ## set_brightness (IMPLEMENTATION_EXAMPLES.md, commands/system.rs) -/

/-- A spawned external command: program name and arguments. -/
structure SysCommand where
  program : String
  args : List String
deriving DecidableEq, Repr

/-- Rust clamp on unsigned integers as used by set_brightness. -/
def natClamp (x lo hi : Nat) : Nat := min (max x lo) hi

/-- The brightnessctl invocation set_brightness builds: program
brightnessctl with arguments set and the clamped percentage, where
safe_level is level.clamp(5, 100). -/
def brightnessCommand (level : Nat) : SysCommand :=
  { program := "brightnessctl"
    args := ["set", toString (natClamp level 5 100) ++ "%"] }

/-- set_brightness from IMPLEMENTATION_EXAMPLES.md: clamp the level to the
safe range 5..100, spawn brightnessctl with the clamped percentage, map a
spawn error into a message, otherwise return Ok.  The spawn argument
stands for Command::output of the host OS. -/
def set_brightness (level : Nat) (spawn : SysCommand → Except String Unit) :
    Except String Unit :=
  match spawn (brightnessCommand level) with
  | .ok _ => .ok ()
  | .error e => .error ("Failed to set brightness: " ++ e)

/-! ## Gaze vector hold policy (modelled from the spec) -/

/-- Per-eye gaze offset with confidence. -/
structure GazeVector where
  offsetX : ℚ
  offsetY : ℚ
  offsetZ : ℚ
  confidence : ℚ
deriving DecidableEq, Repr

/-- The neutral, re-centered gaze. -/
def neutralGaze : GazeVector :=
  { offsetX := 0, offsetY := 0, offsetZ := 0, confidence := 0 }

/-- The shared GazeVector slot together with the number of cycles the
current value has been held without a newly accepted vector. -/
structure GazeSlot where
  current : GazeVector
  holdTicks : Nat
deriving DecidableEq, Repr

/-- Hold the previous value for one more cycle, or re-center to neutral
once the hold-timeout has elapsed. -/
def holdOrRecenter (holdTimeout : Nat) (s : GazeSlot) : GazeSlot :=
  if s.holdTicks + 1 < holdTimeout then { s with holdTicks := s.holdTicks + 1 }
  else { current := neutralGaze, holdTicks := s.holdTicks + 1 }

/-- Modelled from the spec: the per-cycle update of the shared GazeVector
slot (the eye-tracker component is not in the source tree).  A vector at
or above the confidence threshold is applied and resets the hold counter;
a below-threshold vector, like an absent result, is rejected rather than
applied: the last accepted value is held unchanged until the hold-timeout
elapses, after which the slot re-centers to neutral. -/
def gazeSlotStep (threshold : ℚ) (holdTimeout : Nat) (s : GazeSlot)
    (incoming : Option GazeVector) : GazeSlot :=
  match incoming with
  | some v =>
      if threshold ≤ v.confidence then { current := v, holdTicks := 0 }
      else holdOrRecenter holdTimeout s
  | none => holdOrRecenter holdTimeout s

/-! ## Gaze computation (modelled from the spec) -/

/-- A landmark point in normalized image coordinates. -/
structure Landmark where
  x : ℚ
  y : ℚ
  z : ℚ
deriving DecidableEq, Repr

/-- Componentwise sum of a list of landmarks. -/
def landmarkSum (pts : List Landmark) : Landmark :=
  pts.foldl (fun a p => ⟨a.x + p.x, a.y + p.y, a.z + p.z⟩) ⟨0, 0, 0⟩

/-- Centroid of a list of landmarks. -/
def centroid (pts : List Landmark) : Landmark :=
  ⟨(landmarkSum pts).x / pts.length, (landmarkSum pts).y / pts.length,
   (landmarkSum pts).z / pts.length⟩

/-- The fixed index range lo..hi of an ordered landmark sequence. -/
def eyeRegion (ls : List Landmark) (lo hi : Nat) : List Landmark :=
  (ls.drop lo).take (hi - lo)

/-- Componentwise offset of a point from the neutral reference. -/
def offsetFrom (p neutral : Landmark) : Landmark :=
  ⟨p.x - neutral.x, p.y - neutral.y, p.z - neutral.z⟩

/-- Modelled from the spec: Gaze Computation (code not in the source
tree) — extract the fixed index ranges 468..473 for the left and 473..478
for the right eye, compute each centroid, and derive the offset of each
centroid from the startup-calibrated neutral reference. -/
def computeGaze (neutral : Landmark) (ls : List Landmark) : Landmark × Landmark :=
  (offsetFrom (centroid (eyeRegion ls 468 473)) neutral,
   offsetFrom (centroid (eyeRegion ls 473 478)) neutral)

/-- The mutable state of the eye-tracker screen around the gaze stage: the
calibrated neutral reference plus the unrelated mutable fields (shared
slot, failure counters). -/
structure PipeState where
  neutral : Landmark
  slot : GazeSlot
  health : PipelineHealth
deriving DecidableEq, Repr

/-- The gaze stage as invoked by the scheduler on a landmark set: it
returns the per-eye offsets and leaves the state untouched. -/
def gazeStage (st : PipeState) (ls : List Landmark) :
    (Landmark × Landmark) × PipeState :=
  (computeGaze st.neutral ls, st)

/-! ## Frame conversion and capture failure (modelled from the spec) -/

/-- CameraFrame as produced by capture_single_photo. -/
structure CameraFrame where
  width : Nat
  height : Nat
  pixelFormat : String
  pixelBuffer : List Nat
  captureTimestamp : Nat
deriving DecidableEq, Repr

/-- Named conversion error. -/
inductive ConvError where
  | unsupportedPixelFormat : String → ConvError
deriving DecidableEq, Repr

/-- Modelled from the spec: Frame Conversion normalizes an RGB8 buffer
into the dense interleaved format the inference engine expects (the RGB8
path of IMPLEMENTATION.md wraps the buffer into ImageData unchanged); any
other pixel format is an explicit, named hard error, never a silently
corrupted buffer. -/
def frameConvert (f : CameraFrame) : Except ConvError (List Nat) :=
  if f.pixelFormat = "RGB8" then .ok f.pixelBuffer
  else .error (.unsupportedPixelFormat f.pixelFormat)

/-- Joint state of the capture-pipeline bookkeeping and the independent
render loop. -/
structure ScreenState where
  health : PipelineHealth
  renderTicks : Nat
  renderRunning : Bool
deriving DecidableEq, Repr

/-- Modelled from the spec: one capture cycle processing a frame (the
scheduler code is not in the source tree).  A conversion failure is
surfaced to the Scheduler as a capture failure, incrementing
consecutiveCaptureFailures; a successful conversion resets the counter.
The render-loop fields are untouched either way. -/
def captureCycle (st : ScreenState) (f : CameraFrame) : ScreenState :=
  match frameConvert f with
  | .error _ => { st with health := onCaptureFailure st.health }
  | .ok _ => { st with health := onCaptureSuccess st.health }

/-- One tick of the render loop, clocked independently of capture. -/
def renderTick (st : ScreenState) : ScreenState :=
  { st with renderTicks := st.renderTicks + 1 }

/-! ## delete_media (IMPLEMENTATION_EXAMPLES.md, commands/media.rs) -/

/-- The media base directory, home joined with .config/honeybee/media, as
the raw path handed to canonicalize. -/
def mediaBasePath : String := "~/.config/honeybee/media"

/-- delete_media from IMPLEMENTATION_EXAMPLES.md.  The canonical argument
stands for the filesystem canonicalize call: it resolves a raw path
string, following symlinks and dot-dot components, to its canonical
component list, or none when the path does not exist or cannot be
canonicalized.  The command canonicalizes the requested path, then the
media base directory, rejects canonical paths that do not start with the
canonical base, and only then removes the file at the raw path; the Ok
value lists the raw paths removed. -/
def delete_media (canonical : String → Option (List String)) (path : String) :
    Except String (List String) :=
  match canonical path with
  | none => .error "File not found"
  | some canonicalPath =>
    match canonical mediaBasePath with
    | none => .error "Media directory not found"
    | some canonicalBase =>
      if canonicalBase.isPrefixOf canonicalPath then .ok [path]
      else .error "Access denied: path outside media directory"

/-- A concrete canonicalization environment used to exercise delete_media:
the media base resolves under a home directory, one recording exists
inside it, an unrelated system file exists outside it, and every other
path fails to resolve. -/
def canonicalEnv : String → Option (List String) := fun s =>
  if s = "~/.config/honeybee/media" then
    some ["home", "user", ".config", "honeybee", "media"]
  else if s = "/home/user/.config/honeybee/media/audio/rec.wav" then
    some ["home", "user", ".config", "honeybee", "media", "audio", "rec.wav"]
  else if s = "/etc/passwd" then
    some ["etc", "passwd"]
  else none

/-! ## MusicApp delete handler (MusicApp component, unnamed source file) -/

/-- Metadata of one recording as listed by the backend. -/
structure RecordingInfo where
  filename : String
  path : String
  size : Nat
  modified : Nat
deriving DecidableEq, Repr

/-- MusicApp component state touched by deleteRecording. -/
structure MusicState where
  recordings : List RecordingInfo
  currentTrack : Option RecordingInfo
  isPlaying : Bool
  deleting : Bool
  confirmDelete : Option String
deriving DecidableEq, Repr

/-- deleteRecording from the MusicApp component: invoke delete_recording
on the backend; on success, if the currently playing track has the deleted
path, stop playback and clear currentTrack, then filter the recordings
list by path; on failure only log, leaving the list untouched; in both
cases the finally block clears the deleting flag and the pending delete
confirmation. -/
def deleteRecording (s : MusicState) (path : String)
    (backend : Except String Unit) : MusicState :=
  match backend with
  | .ok _ =>
      let s1 :=
        if s.currentTrack.map RecordingInfo.path = some path then
          { s with currentTrack := none, isPlaying := false }
        else s
      { s1 with
          recordings := s1.recordings.filter (fun r => r.path != path)
          deleting := false
          confirmDelete := none }
  | .error _ => { s with deleting := false, confirmDelete := none }

/-- Two concrete recordings used to exercise deleteRecording. -/
def recA : RecordingInfo := ⟨"a.wav", "/media/audio/a.wav", 10, 100⟩

/-- Second concrete recording, kept by the delete. -/
def recB : RecordingInfo := ⟨"b.wav", "/media/audio/b.wav", 20, 200⟩

/-- A concrete MusicApp state: both recordings listed, the first one
currently playing, a delete confirmation pending for it. -/
def musicStateAB : MusicState :=
  ⟨[recA, recB], some recA, true, false, some "/media/audio/a.wav"⟩

/-! ## RecorderApp close handler (RecorderApp.tsx, handleClose) -/

/-- Observable outcome of one run of handleClose. -/
structure CloseOutcome where
  stopRecordingCalled : Bool
  logs : List String
  onCloseCalled : Bool
  raised : Option String
deriving DecidableEq, Repr

/-- handleClose from RecorderApp.tsx: when isRecording it awaits
invoke stop_recording with a catch handler that does nothing, then it
calls onClose unconditionally.  The stopResult argument stands for the
outcome of the stop_recording invocation. -/
def handleClose (isRecording : Bool) (stopResult : Except String Unit) : CloseOutcome :=
  if isRecording then
    match stopResult with
    | .ok _ =>
        { stopRecordingCalled := true, logs := [], onCloseCalled := true, raised := none }
    | .error _ =>
        { stopRecordingCalled := true, logs := [], onCloseCalled := true, raised := none }
  else
    { stopRecordingCalled := false, logs := [], onCloseCalled := true, raised := none }

end Honeybee

namespace Honeybee

/-! ### Claim C1 -/

/-- Claim C1 counterexample: the claimed teardown order is violated by the
Cleanup on Unmount code.  There is no await/cancel-inference step in the
trace at all (so camera release cannot be preceded by one), and the
inference session is closed before GPU disposal, not last. -/
theorem C1_teardown_order_counterexample :
    TeardownStep.cancelInference ∉ (cleanupOnUnmount ⟨true, true, true, true⟩).2 ∧
    List.indexOf TeardownStep.closeInference (cleanupOnUnmount ⟨true, true, true, true⟩).2 <
      List.indexOf TeardownStep.disposeGPU (cleanupOnUnmount ⟨true, true, true, true⟩).2 := by
  decide

/-- Claim C1 (amended): in the Cleanup on Unmount code the teardown steps
occur in the strict order: the capture timer is stopped first, then the
camera handle is released, then the inference session is closed, then GPU
resources are disposed; it contains no await/cancel of an in-flight
inference call, each of the four actions occurs exactly once, and after
the run every resource has been released. -/
theorem C1_teardown_order :
    (cleanupOnUnmount ⟨true, true, true, true⟩).2 =
      [.stopTimer, .releaseCamera, .closeInference, .disposeGPU] ∧
    List.indexOf TeardownStep.stopTimer (cleanupOnUnmount ⟨true, true, true, true⟩).2 = 0 ∧
    List.indexOf TeardownStep.releaseCamera (cleanupOnUnmount ⟨true, true, true, true⟩).2 <
      List.indexOf TeardownStep.closeInference (cleanupOnUnmount ⟨true, true, true, true⟩).2 ∧
    (cleanupOnUnmount ⟨true, true, true, true⟩).1 = ⟨false, false, false, false⟩ := by
  decide

/-! ### Claim C2 -/

/-- Claim C2: in every reachable scheduler state at most one
capture-to-inference round trip is outstanding, and a tick that fires
while the previous cycle is still outstanding starts no second concurrent
capture (the outstanding count is unchanged) and increments the skip
counter. -/
theorem C2_overlap_invariant :
    (∀ events : List SchedEvent, (schedRun events).outstanding ≤ 1) ∧
    (∀ s : SchedState, 0 < s.outstanding →
      (schedStep s .tick).outstanding = s.outstanding ∧
      (schedStep s .tick).skips = s.skips + 1) := by
  constructor
  · intro events
    suffices h : ∀ (l : List SchedEvent) (s : SchedState), s.outstanding ≤ 1 →
        (l.foldl schedStep s).outstanding ≤ 1 by
      exact h events schedInit (by decide)
    intro l
    induction l with
    | nil => intro s hs; exact hs
    | cons e tl ih =>
        intro s hs
        apply ih
        cases e with
        | tick =>
            unfold schedStep
            by_cases h0 : 0 < s.outstanding
            · rw [if_pos h0]; exact hs
            · rw [if_neg h0]
              show s.outstanding + 1 ≤ 1
              omega
        | complete =>
            show s.outstanding - 1 ≤ 1
            omega
  · intro s hpos
    constructor
    · unfold schedStep; rw [if_pos hpos]
    · unfold schedStep; rw [if_pos hpos]

/-- Witness for claim C2 at concrete inputs: two ticks in a row leave at
most one cycle outstanding, and a tick in a state with one outstanding
cycle keeps it at one and bumps the skip counter. -/
theorem C2_overlap_invariant_witness :
    (schedRun [SchedEvent.tick, SchedEvent.tick]).outstanding ≤ 1 ∧
    (schedStep ⟨1, 0⟩ .tick).outstanding = 1 ∧
    (schedStep ⟨1, 0⟩ .tick).skips = 1 :=
  ⟨C2_overlap_invariant.1 [SchedEvent.tick, SchedEvent.tick],
   (C2_overlap_invariant.2 ⟨1, 0⟩ (by decide)).1,
   (C2_overlap_invariant.2 ⟨1, 0⟩ (by decide)).2⟩

/-! ### Claim C3 -/

/-- Claim C3: once the consecutive-capture-failure count exceeds the
threshold, the effective retry interval strictly increases with each
further consecutive failure as long as it is below the cap, never exceeds
the cap, and a single successful capture resets the failure count to zero,
which puts the interval back at the base period P. -/
theorem C3_backoff_invariant (P threshold maxInterval : Nat) (hP : 0 < P) :
    (∀ n, threshold < n → retryInterval P threshold maxInterval n < maxInterval →
        retryInterval P threshold maxInterval n <
          retryInterval P threshold maxInterval (n + 1)) ∧
    (∀ n, threshold < n → retryInterval P threshold maxInterval n ≤ maxInterval) ∧
    (∀ h : PipelineHealth, (onCaptureSuccess h).consecutiveCaptureFailures = 0 ∧
        retryInterval P threshold maxInterval
          (onCaptureSuccess h).consecutiveCaptureFailures = P) := by
  refine ⟨?_, ?_, ?_⟩
  · intro n hn hlt
    have hn1 : ¬ n ≤ threshold := not_le.mpr hn
    have hn2 : ¬ n + 1 ≤ threshold := by omega
    unfold retryInterval at hlt ⊢
    rw [if_neg hn1] at hlt ⊢
    rw [if_neg hn2]
    have hxlt : P * 2 ^ (n - threshold) < maxInterval := by
      by_contra hge
      push_neg at hge
      rw [min_eq_right hge] at hlt
      exact lt_irrefl _ hlt
    have hxpos : 0 < P * 2 ^ (n - threshold) :=
      Nat.mul_pos hP (pow_pos (by norm_num) _)
    rw [min_eq_left hxlt.le]
    have hsucc : n + 1 - threshold = (n - threshold) + 1 := by omega
    rw [hsucc, pow_succ]
    have h2 : P * (2 ^ (n - threshold) * 2) = P * 2 ^ (n - threshold) * 2 := by ring
    rw [h2]
    exact lt_min (by omega) hxlt
  · intro n hn
    unfold retryInterval
    rw [if_neg (not_le.mpr hn)]
    exact min_le_right _ _
  · intro h
    refine ⟨rfl, ?_⟩
    show retryInterval P threshold maxInterval 0 = P
    unfold retryInterval
    rw [if_pos (Nat.zero_le _)]

/-- Witness for claim C3 at the concrete tuning of the spec: base period
50 ms, threshold 10, cap 5000 ms; at eleven consecutive failures the
interval is below the cap and strictly increases at the twelfth, and a
success resets it to 50. -/
theorem C3_backoff_invariant_witness :
    retryInterval 50 10 5000 11 < retryInterval 50 10 5000 12 ∧
    retryInterval 50 10 5000 11 ≤ 5000 ∧
    retryInterval 50 10 5000 (onCaptureSuccess ⟨12, 0⟩).consecutiveCaptureFailures = 50 :=
  ⟨(C3_backoff_invariant 50 10 5000 (by decide)).1 11 (by decide) (by decide),
   (C3_backoff_invariant 50 10 5000 (by decide)).2.1 11 (by decide),
   ((C3_backoff_invariant 50 10 5000 (by decide)).2.2 ⟨12, 0⟩).2⟩

/-! ### Claim C4 -/

/-- Claim C4: a gaze vector whose eye-region confidence is below the
configured threshold is not applied to the shared slot that cycle: while
the hold-timeout has not elapsed the last accepted vector is held
unchanged, once it has elapsed the slot re-centers to neutral, and a new
valid vector is applied as usual. -/
theorem C4_low_confidence_hold (threshold : ℚ) (holdTimeout : Nat) (s : GazeSlot)
    (v : GazeVector) (hlow : v.confidence < threshold) :
    (s.holdTicks + 1 < holdTimeout →
      (gazeSlotStep threshold holdTimeout s (some v)).current = s.current) ∧
    (holdTimeout ≤ s.holdTicks + 1 →
      (gazeSlotStep threshold holdTimeout s (some v)).current = neutralGaze) ∧
    (∀ w : GazeVector, threshold ≤ w.confidence →
      (gazeSlotStep threshold holdTimeout s (some w)).current = w) := by
  have hnot : ¬ threshold ≤ v.confidence := not_le.mpr hlow
  refine ⟨?_, ?_, ?_⟩
  · intro hhold
    simp only [gazeSlotStep, if_neg hnot, holdOrRecenter, if_pos hhold]
  · intro htimeout
    have hnlt : ¬ s.holdTicks + 1 < holdTimeout := by omega
    simp only [gazeSlotStep, if_neg hnot, holdOrRecenter, if_neg hnlt]
  · intro w hw
    simp only [gazeSlotStep, if_pos hw]

/-- Witness for claim C4 at concrete inputs: threshold 1, hold-timeout 3;
a zero-confidence vector leaves the held value in place, a state past the
timeout re-centers to neutral, and a full-confidence vector is applied. -/
theorem C4_low_confidence_hold_witness :
    (gazeSlotStep 1 3 ⟨⟨1, 0, 0, 1⟩, 0⟩ (some ⟨0, 0, 0, 0⟩)).current = ⟨1, 0, 0, 1⟩ ∧
    (gazeSlotStep 1 3 ⟨⟨1, 0, 0, 1⟩, 5⟩ (some ⟨0, 0, 0, 0⟩)).current = neutralGaze ∧
    (gazeSlotStep 1 3 ⟨⟨1, 0, 0, 1⟩, 0⟩ (some ⟨0, 2, 0, 1⟩)).current = ⟨0, 2, 0, 1⟩ :=
  ⟨(C4_low_confidence_hold 1 3 ⟨⟨1, 0, 0, 1⟩, 0⟩ ⟨0, 0, 0, 0⟩ (by simp)).1 (by decide),
   (C4_low_confidence_hold 1 3 ⟨⟨1, 0, 0, 1⟩, 5⟩ ⟨0, 0, 0, 0⟩ (by simp)).2.1 (by decide),
   (C4_low_confidence_hold 1 3 ⟨⟨1, 0, 0, 1⟩, 0⟩ ⟨0, 0, 0, 0⟩ (by simp)).2.2
     ⟨0, 2, 0, 1⟩ (by simp)⟩

/-! ### Claim C5 -/

/-- Claim C5: the gaze stage is a deterministic pure function of its
landmark-set input: in any two states that agree on the startup-calibrated
neutral reference it produces identical per-eye offsets, it never mutates
the state, and calling it again after itself yields the same output. -/
theorem C5_gaze_pure (st st2 : PipeState) (ls : List Landmark)
    (hneutral : st.neutral = st2.neutral) :
    (gazeStage st ls).1 = (gazeStage st2 ls).1 ∧
    (gazeStage st ls).2 = st ∧
    (gazeStage (gazeStage st ls).2 ls).1 = (gazeStage st ls).1 := by
  refine ⟨?_, rfl, rfl⟩
  simp only [gazeStage, hneutral]

/-- Witness for claim C5: two concrete states sharing the neutral
reference but differing in slot and failure counters give the same gaze
output on the same landmark set. -/
theorem C5_gaze_pure_witness :
    (gazeStage ⟨⟨0, 0, 0⟩, ⟨neutralGaze, 0⟩, ⟨0, 0⟩⟩ [⟨1, 2, 3⟩]).1 =
      (gazeStage ⟨⟨0, 0, 0⟩, ⟨⟨1, 1, 1, 1⟩, 7⟩, ⟨3, 4⟩⟩ [⟨1, 2, 3⟩]).1 ∧
    (gazeStage ⟨⟨0, 0, 0⟩, ⟨neutralGaze, 0⟩, ⟨0, 0⟩⟩ [⟨1, 2, 3⟩]).2 =
      ⟨⟨0, 0, 0⟩, ⟨neutralGaze, 0⟩, ⟨0, 0⟩⟩ :=
  ⟨(C5_gaze_pure ⟨⟨0, 0, 0⟩, ⟨neutralGaze, 0⟩, ⟨0, 0⟩⟩
      ⟨⟨0, 0, 0⟩, ⟨⟨1, 1, 1, 1⟩, 7⟩, ⟨3, 4⟩⟩ [⟨1, 2, 3⟩] rfl).1,
   (C5_gaze_pure ⟨⟨0, 0, 0⟩, ⟨neutralGaze, 0⟩, ⟨0, 0⟩⟩
      ⟨⟨0, 0, 0⟩, ⟨⟨1, 1, 1, 1⟩, 7⟩, ⟨3, 4⟩⟩ [⟨1, 2, 3⟩] rfl).2.1⟩

/-! ### Claim C6 -/

/-- Claim C6: a frame with an unsupported pixel format makes Frame
Conversion fail with an explicit, named error; the capture cycle records
it by incrementing consecutiveCaptureFailures; and the render loop is
unaffected — its fields are unchanged and its next tick still advances. -/
theorem C6_unsupported_format (st : ScreenState) (f : CameraFrame)
    (hfmt : f.pixelFormat ≠ "RGB8") :
    frameConvert f = .error (.unsupportedPixelFormat f.pixelFormat) ∧
    (captureCycle st f).health.consecutiveCaptureFailures =
      st.health.consecutiveCaptureFailures + 1 ∧
    (captureCycle st f).renderTicks = st.renderTicks ∧
    (captureCycle st f).renderRunning = st.renderRunning ∧
    (renderTick (captureCycle st f)).renderTicks = st.renderTicks + 1 := by
  have h1 : frameConvert f = .error (.unsupportedPixelFormat f.pixelFormat) := by
    unfold frameConvert
    rw [if_neg hfmt]
  refine ⟨h1, ?_, ?_, ?_, ?_⟩ <;>
    simp [captureCycle, h1, onCaptureFailure, renderTick]

/-- Witness for claim C6 at a concrete frame in YUYV format: conversion
fails with the named error, the failure counter goes from 2 to 3, and the
render tick count is untouched. -/
theorem C6_unsupported_format_witness :
    frameConvert ⟨640, 480, "YUYV", [0, 1, 2], 17⟩ =
      .error (.unsupportedPixelFormat "YUYV") ∧
    (captureCycle ⟨⟨2, 0⟩, 41, true⟩ ⟨640, 480, "YUYV", [0, 1, 2], 17⟩).health.consecutiveCaptureFailures = 3 ∧
    (captureCycle ⟨⟨2, 0⟩, 41, true⟩ ⟨640, 480, "YUYV", [0, 1, 2], 17⟩).renderTicks = 41 :=
  ⟨(C6_unsupported_format ⟨⟨2, 0⟩, 41, true⟩ ⟨640, 480, "YUYV", [0, 1, 2], 17⟩ (by decide)).1,
   (C6_unsupported_format ⟨⟨2, 0⟩, 41, true⟩ ⟨640, 480, "YUYV", [0, 1, 2], 17⟩ (by decide)).2.1,
   (C6_unsupported_format ⟨⟨2, 0⟩, 41, true⟩ ⟨640, 480, "YUYV", [0, 1, 2], 17⟩ (by decide)).2.2.1⟩

/-! ### Claim C7 -/

/-- Claim C7 counterexample: handleClose does not log the release-time
error.  With recording active and stop_recording failing with a concrete
error message, the log list of the run is empty, so the error is not
logged, contradicting the claim that every release-time error is logged
and swallowed. -/
theorem C7_swallow_counterexample :
    (handleClose true (Except.error "camera handle already gone")).logs = [] := by
  decide

/-- Claim C7 (amended): for every outcome of the stop_recording invocation,
handleClose swallows any error without logging it (the catch handler does
nothing), still calls onClose, and never re-raises the error, so the close
sequence always runs to completion. -/
theorem C7_swallow_and_continue (isRecording : Bool) (stopResult : Except String Unit) :
    (handleClose isRecording stopResult).raised = none ∧
    (handleClose isRecording stopResult).onCloseCalled = true ∧
    (handleClose isRecording stopResult).logs = [] := by
  cases isRecording <;> cases stopResult <;> simp [handleClose]

/-- Witness for the amended claim C7 at a concrete input: recording active
and stop_recording failing. -/
theorem C7_swallow_and_continue_witness :
    (handleClose true (Except.error "stop failed")).raised = none ∧
    (handleClose true (Except.error "stop failed")).onCloseCalled = true ∧
    (handleClose true (Except.error "stop failed")).logs = [] :=
  C7_swallow_and_continue true (Except.error "stop failed")

/-! ### Claim C8 -/

/-- Claim C8: for every input level in 0..255, set_brightness invokes
brightnessctl with the clamped value level.clamp(5, 100), so the requested
brightness is always between 5 and 100 inclusive, and set_brightness
returns Ok whenever spawning the external command succeeds. -/
theorem C8_set_brightness_clamped (level : Nat) (spawn : SysCommand → Except String Unit)
    (_hlevel : level ≤ 255) :
    5 ≤ natClamp level 5 100 ∧ natClamp level 5 100 ≤ 100 ∧
    brightnessCommand level =
      { program := "brightnessctl"
        args := ["set", toString (natClamp level 5 100) ++ "%"] } ∧
    (∀ u, spawn (brightnessCommand level) = .ok u →
      set_brightness level spawn = .ok ()) := by
  refine ⟨?_, ?_, rfl, ?_⟩
  · exact le_min (le_max_right _ _) (by norm_num)
  · exact min_le_right _ _
  · intro u h
    unfold set_brightness
    rw [h]

/-- Witness for claim C8 at level 0 with a spawn that succeeds: the
requested level is clamped into 5..100 and the command returns Ok. -/
theorem C8_set_brightness_clamped_witness :
    5 ≤ natClamp 0 5 100 ∧ natClamp 0 5 100 ≤ 100 ∧
    set_brightness 0 (fun _ => .ok ()) = .ok () := by
  have h := C8_set_brightness_clamped 0 (fun _ => .ok ()) (by norm_num)
  exact ⟨h.1, h.2.1, h.2.2.2 () rfl⟩

/-! ### Claim C9 -/

/-- Claim C9: delete_media removes a file only when the canonicalized
requested path starts with the canonicalized media base directory; for
every path that does not exist or cannot be canonicalized it returns the
File-not-found error and deletes nothing, when the base cannot be
canonicalized it errors and deletes nothing, and a path canonicalizing
outside the base is rejected with the access-denied error without deleting
anything. -/
theorem C9_delete_media_validation (canonical : String → Option (List String))
    (path : String) :
    (canonical path = none →
      delete_media canonical path = .error "File not found") ∧
    (∀ cp, canonical path = some cp → canonical mediaBasePath = none →
      delete_media canonical path = .error "Media directory not found") ∧
    (∀ cp cb, canonical path = some cp → canonical mediaBasePath = some cb →
      cb.isPrefixOf cp = false →
      delete_media canonical path =
        .error "Access denied: path outside media directory") ∧
    (∀ deleted, delete_media canonical path = .ok deleted →
      deleted = [path] ∧
      ∃ cp cb, canonical path = some cp ∧ canonical mediaBasePath = some cb ∧
        cb.isPrefixOf cp = true) := by
  refine ⟨?_, ?_, ?_, ?_⟩
  · intro h
    unfold delete_media
    rw [h]
  · intro cp hcp hbase
    unfold delete_media
    rw [hcp, hbase]
  · intro cp cb hcp hcb hpre
    unfold delete_media
    rw [hcp, hcb]
    simp [hpre]
  · intro deleted h
    unfold delete_media at h
    split at h
    · exact absurd h (by simp)
    · next cp hcp =>
        split at h
        · exact absurd h (by simp)
        · next cb hcb =>
            split at h
            · next hpre =>
                injection h with h2
                exact ⟨h2.symm, cp, cb, hcp, hcb, hpre⟩
            · exact absurd h (by simp)

/-- Witness for claim C9 in the concrete canonicalization environment: a
path that does not resolve yields File not found, a path resolving outside
the base is denied, and the one recording inside the base is the only
thing a successful call deletes. -/
theorem C9_delete_media_validation_witness :
    delete_media canonicalEnv "/nonexistent" = .error "File not found" ∧
    delete_media canonicalEnv "/etc/passwd" =
      .error "Access denied: path outside media directory" ∧
    (["/home/user/.config/honeybee/media/audio/rec.wav"] =
        ["/home/user/.config/honeybee/media/audio/rec.wav"] ∧
      ∃ cp cb, canonicalEnv "/home/user/.config/honeybee/media/audio/rec.wav" = some cp ∧
        canonicalEnv mediaBasePath = some cb ∧ cb.isPrefixOf cp = true) :=
  ⟨(C9_delete_media_validation canonicalEnv "/nonexistent").1 (by decide),
   (C9_delete_media_validation canonicalEnv "/etc/passwd").2.2.1
     ["etc", "passwd"] ["home", "user", ".config", "honeybee", "media"]
     (by decide) (by decide) (by decide),
   (C9_delete_media_validation canonicalEnv
       "/home/user/.config/honeybee/media/audio/rec.wav").2.2.2
     ["/home/user/.config/honeybee/media/audio/rec.wav"] rfl⟩

/-! ### Claim C10 -/

/-- Claim C10: when the backend delete succeeds, the MusicApp recordings
list becomes the previous list with exactly the entries of the deleted
path removed — a sublist, so every surviving entry is unchanged in value
and relative order — and when the deleted path is the currently playing
track, playback stops and currentTrack is cleared; when the backend delete
fails, the recordings list is left unchanged. -/
theorem C10_deleteRecording_effect (s : MusicState) (path : String)
    (backend : Except String Unit) :
    (backend = .ok () →
      (deleteRecording s path backend).recordings =
        s.recordings.filter (fun r => r.path != path) ∧
      (deleteRecording s path backend).recordings.Sublist s.recordings ∧
      (∀ r, r ∈ (deleteRecording s path backend).recordings ↔
        r ∈ s.recordings ∧ r.path ≠ path) ∧
      (∀ t, s.currentTrack = some t → t.path = path →
        (deleteRecording s path backend).currentTrack = none ∧
        (deleteRecording s path backend).isPlaying = false)) ∧
    (∀ e, backend = .error e →
      (deleteRecording s path backend).recordings = s.recordings) := by
  constructor
  · intro hok
    subst hok
    by_cases hc : s.currentTrack.map RecordingInfo.path = some path
    · refine ⟨by simp [deleteRecording, hc], ?_, ?_, ?_⟩
      · simp [deleteRecording, hc]
      · intro r
        simp [deleteRecording, hc, List.mem_filter]
      · intro t ht hpath
        constructor <;> simp [deleteRecording, hc]
    · refine ⟨by simp [deleteRecording, hc], ?_, ?_, ?_⟩
      · simp [deleteRecording, hc]
      · intro r
        simp [deleteRecording, hc, List.mem_filter]
      · intro t ht hpath
        exfalso
        apply hc
        rw [ht]
        simp [hpath]
  · intro e he
    subst he
    simp [deleteRecording]

/-- Witness for claim C10 on the concrete two-recording state, deleting
the currently playing track: on success the list shrinks to the filtered
list, playback stops and currentTrack clears; on a backend error the list
is unchanged. -/
theorem C10_deleteRecording_effect_witness :
    (deleteRecording musicStateAB "/media/audio/a.wav" (Except.ok ())).recordings =
      musicStateAB.recordings.filter (fun r => r.path != "/media/audio/a.wav") ∧
    (deleteRecording musicStateAB "/media/audio/a.wav" (Except.ok ())).currentTrack = none ∧
    (deleteRecording musicStateAB "/media/audio/a.wav" (Except.ok ())).isPlaying = false ∧
    (deleteRecording musicStateAB "/media/audio/a.wav" (Except.error "io error")).recordings =
      musicStateAB.recordings :=
  ⟨((C10_deleteRecording_effect musicStateAB "/media/audio/a.wav" (Except.ok ())).1 rfl).1,
   (((C10_deleteRecording_effect musicStateAB "/media/audio/a.wav" (Except.ok ())).1 rfl).2.2.2
     recA rfl rfl).1,
   (((C10_deleteRecording_effect musicStateAB "/media/audio/a.wav" (Except.ok ())).1 rfl).2.2.2
     recA rfl rfl).2,
   (C10_deleteRecording_effect musicStateAB "/media/audio/a.wav"
     (Except.error "io error")).2 "io error" rfl⟩

end Honeybee
